import Mathlib

/-!
Shallow embedding of the historical-data retrieval pipeline of
`python-scripts/IB/ib_historical.py` (Interactive Brokers gateway client).

Conventions of the embedding:
* Python exceptions are modelled by `Option`/`Except`: a function that can
  raise returns `none`/`.error` on the raising paths.
* `str.split(" ")` is `pySplit` (keeping empty fields, as Python's split
  with an explicit separator does).
* Python slicing `s[a:b]` never raises; it is `pySlice`.
* Machine floats carried by bars (open/high/low/close/volume) are modelled
  as integers: no claim performs arithmetic on them, they are only moved
  around, so any inhabited type with decidable equality is faithful.
* `pd.Timestamp` values are calendar records (`PTimestamp`); their `int64`
  view is epoch nanoseconds via the civil-calendar day count.
-/

namespace IBHist

/-- Split a character list at every occurrence of `sep`, keeping empty
fields — the semantics of Python's `str.split(sep)` with an explicit
separator. -/
def splitChar (sep : Char) : List Char → List (List Char)
  | [] => [[]]
  | c :: cs =>
    match splitChar sep cs, decide (c = sep) with
    | r, true => [] :: r
    | [], false => [[c]]
    | h :: t, false => (c :: h) :: t

/-- Python `s.split(" ")`. -/
def pySplit (s : String) : List String :=
  (splitChar ' ' s.data).map String.mk

/-- Python `c in s` for a single character. -/
def pyContains (s : String) (c : Char) : Bool :=
  s.data.contains c

/-- Python `s.strip()`. -/
def pyStrip (s : String) : String :=
  String.mk
    (((s.data.dropWhile Char.isWhitespace).reverse.dropWhile
        Char.isWhitespace).reverse)

/-- Python slice `s[a:b]` (clamping, never raising). -/
def pySlice (s : String) (a b : Nat) : String :=
  String.mk ((s.data.drop a).take (b - a))

/-- Python `int(s)` restricted to the inputs reachable here: a non-empty
all-digit string parses to its decimal value, anything else raises
(`none`). -/
def pyInt (s : String) : Option Nat :=
  if s.data.length ≠ 0 ∧ s.data.all Char.isDigit then
    some (s.data.foldl (fun acc c => acc * 10 + (c.toNat - 48)) 0)
  else none

/-- Calendar timestamp, the shape of a `pd.Timestamp` built from explicit
year/month/day/hour/minute/second fields. -/
structure PTimestamp where
  year : Nat
  month : Nat
  day : Nat
  hour : Nat
  minute : Nat
  second : Nat
  deriving Repr, DecidableEq

/-- Gregorian leap-year test. -/
def isLeap (y : Nat) : Bool :=
  (y % 4 == 0 && y % 100 != 0) || y % 400 == 0

/-- Days in a month of the Gregorian calendar. -/
def daysInMonth (y m : Nat) : Nat :=
  if m == 2 then (if isLeap y then 29 else 28)
  else if m == 4 || m == 6 || m == 9 || m == 11 then 30
  else 31

/-- `pd.Timestamp(year=..., ..., second=...)`: validates the calendar
fields (and the nanosecond-representable year range) and raises on any
out-of-range field. -/
def mkPdTimestamp (y mo d h mi s : Nat) : Option PTimestamp :=
  if 1677 ≤ y ∧ y ≤ 2262 ∧ 1 ≤ mo ∧ mo ≤ 12 ∧ 1 ≤ d ∧ d ≤ daysInMonth y mo
      ∧ h < 24 ∧ mi < 60 ∧ s < 60 then
    some ⟨y, mo, d, h, mi, s⟩
  else none

/-- `parse_ib_datetime` (ib_historical.py lines 344-385): strips the
input, splits on single spaces, pads a one-field split with
`["", "00:00:00"]`, then reads the date from field 0 and the time from
field 2 by fixed-width slices.  Reading field 2 of a shorter split is an
`IndexError` (`none`), and non-numeric slices fail in `int` (`none`). -/
def parse_ib_datetime (date_str : String) : Option PTimestamp := do
  let date_str := pyStrip date_str
  let parts := pySplit date_str
  let parts := if parts.length == 1 then parts ++ ["", "00:00:00"] else parts
  let date_part ← parts[0]?
  let time_part ← parts[2]?
  let year ← pyInt (pySlice date_part 0 4)
  let month ← pyInt (pySlice date_part 4 6)
  let day ← pyInt (pySlice date_part 6 8)
  let hour ← pyInt (pySlice time_part 0 2)
  let minute ← pyInt (pySlice time_part 3 5)
  let second ← pyInt (pySlice time_part 6 8)
  mkPdTimestamp year month day hour minute second

/-- `parse_ib_timezone` (ib_historical.py lines 389-397). -/
def parse_ib_timezone (x : String) : String :=
  let parts := pySplit x
  if pyContains x '-' ∨ pyContains x '+' then "US/Eastern"
  else if 3 ≤ parts.length ∧ pyContains (parts.getLastD "") '/' then
    parts.getLastD ""
  else "US/Eastern"

namespace MarketDataApp

/-- Error codes listed as critical in `MarketDataApp.error`
(ib_historical.py line 125). -/
def critical_errors : List Nat := [504, 1100, 1101, 1102, 162, 200, 321]

/-- `MarketDataApp.error` (ib_historical.py lines 106-139): classifies an
inbound error code.  The result is the new value of the `connected` flag
together with the console lines the callback prints. -/
def error (verbose : Nat) (connected : Bool) (errorCode : Nat) :
    Bool × List String :=
  if errorCode ∈ critical_errors ∨ 1 ≤ verbose then
    if errorCode ∈ [2104, 2106, 2158] then
      (connected, if 2 ≤ verbose then ["Data farm connection OK"] else [])
    else if errorCode = 2176 then
      (connected,
        if 2 ≤ verbose then ["API Version Warning"] else [])
    else
      (if errorCode ∈ [504, 1100, 1101, 1102] then false else connected,
        ["Error"])
  else (connected, [])

/-- The `connected` flag after `error` depends only on whether the code is
one of the four connection-level codes, never on verbosity. -/
theorem error_fst (verbose : Nat) (connected : Bool) (code : Nat) :
    (error verbose connected code).1 =
      if code ∈ [504, 1100, 1101, 1102] then false else connected := by
  by_cases hd : code ∈ [504, 1100, 1101, 1102]
  · have hc : code ∈ critical_errors := by
      simp only [critical_errors, List.mem_cons, List.not_mem_nil, or_false] at hd ⊢
      tauto
    have hfarm : ¬ code ∈ [2104, 2106, 2158] := by
      simp only [List.mem_cons, List.not_mem_nil, or_false] at hd ⊢
      rcases hd with h | h | h | h <;> subst h <;> decide
    have h76 : ¬ code = 2176 := by
      simp only [List.mem_cons, List.not_mem_nil, or_false] at hd
      rcases hd with h | h | h | h <;> subst h <;> decide
    unfold error
    rw [if_pos (Or.inl hc), if_neg hfarm, if_neg h76, if_pos hd]
  · unfold error
    by_cases houter : code ∈ critical_errors ∨ 1 ≤ verbose
    · rw [if_pos houter]
      by_cases hfarm : code ∈ [2104, 2106, 2158]
      · rw [if_pos hfarm, if_neg hd]
      · rw [if_neg hfarm]
        by_cases h76 : code = 2176
        · subst h76
          simp
        · rw [if_neg h76, if_neg hd]
    · rw [if_neg houter, if_neg hd]

/-- A critical code outside the data-farm and version-warning groups is
always surfaced: the callback prints at every verbosity. -/
theorem error_snd_critical (verbose : Nat) (connected : Bool) (code : Nat)
    (hc : code ∈ critical_errors) (hfarm : ¬ code ∈ [2104, 2106, 2158])
    (h76 : ¬ code = 2176) :
    (error verbose connected code).2 = ["Error"] := by
  unfold error
  rw [if_pos (Or.inl hc), if_neg hfarm, if_neg h76]

end MarketDataApp

/-- One OHLCV bar as delivered by the gateway callback: the raw date
string plus the numeric fields copied verbatim into the per-request
list. -/
structure Bar where
  date : String
  open_ : Int
  high : Int
  low : Int
  close : Int
  volume : Int
  deriving Repr, DecidableEq

/-- The shared mutable state of a `MarketDataApp` instance: per-request
bar lists (`self.data`), per-request completion flags (`self.done`), and
the connection flags. -/
structure SessionState where
  data : Nat → List Bar
  done : Nat → Bool
  connected : Bool
  connectionTried : Bool

/-- State right after `MarketDataApp.__init__`. -/
def initSession : SessionState :=
  { data := fun _ => [], done := fun _ => false,
    connected := false, connectionTried := false }

/-- An inbound gateway callback event, delivered by the background
reader thread. -/
inductive GwEvent where
  | bar (reqId : Nat) (b : Bar)
  | endOfStream (reqId : Nat)
  | err (reqId : Nat) (errorCode : Nat)
  | connAck
  | nextValid (orderId : Nat)
  deriving Repr, DecidableEq

namespace MarketDataApp

/-- `historicalData` (lines 160-185): create the request's list on first
arrival and append the bar's fields. -/
def historicalData (s : SessionState) (reqId : Nat) (b : Bar) :
    SessionState :=
  { s with data := fun r => if r = reqId then s.data r ++ [b] else s.data r }

/-- `historicalDataEnd` (lines 187-198): mark the request complete. -/
def historicalDataEnd (s : SessionState) (reqId : Nat) : SessionState :=
  { s with done := fun r => if r = reqId then true else s.done r }

/-- `connectAck` (lines 141-146). -/
def connectAckCb (s : SessionState) : SessionState :=
  { s with connectionTried := true }

/-- `nextValidId` (lines 148-158). -/
def nextValidId (s : SessionState) : SessionState :=
  { s with connected := true }

end MarketDataApp

/-- Dispatch one callback event to the corresponding wrapper method. -/
def applyEvent (verbose : Nat) (s : SessionState) : GwEvent → SessionState
  | .bar r b => MarketDataApp.historicalData s r b
  | .endOfStream r => MarketDataApp.historicalDataEnd s r
  | .err _ code =>
      { s with connected := (MarketDataApp.error verbose s.connected code).1 }
  | .connAck => MarketDataApp.connectAckCb s
  | .nextValid _ => MarketDataApp.nextValidId s

/-- Deliver a batch of events in order (the background thread runs them
one at a time). -/
def applyEvents (verbose : Nat) (s : SessionState) (es : List GwEvent) :
    SessionState :=
  es.foldl (applyEvent verbose) s

/-- The polling pattern shared by the connect wait and the completion
wait: check the flag, and if it is still unset sleep 0.1 s — during
which the background thread delivers the next batch of events — and
retry.  The schedule's length is the poll budget (timeout / 0.1 s); the
result is the state at exit and the number of batches consumed. -/
def pollLoop (verbose : Nat) (check : SessionState → Bool)
    (s : SessionState) : List (List GwEvent) → SessionState × Nat
  | [] => (s, 0)
  | batch :: rest =>
    if check s then (s, 0)
    else
      let p := pollLoop verbose check (applyEvents verbose s batch) rest
      (p.1, p.2 + 1)

/-- The completion-wait loop of `get_historical_data` (lines 443-446):
poll `done[reqId]` every 0.1 s for up to 30 s. -/
def pollWait (verbose reqId : Nat) (s : SessionState)
    (sched : List (List GwEvent)) : SessionState × Nat :=
  pollLoop verbose (fun st => st.done reqId) s sched

/-- Lines 427-446 of `get_historical_data` for one request: reset
`done[reqId] = False`, issue the request (an outbound call with no state
effect), then run the completion wait. -/
def issueAndWait (verbose reqId : Nat) (s : SessionState)
    (sched : List (List GwEvent)) : SessionState × Nat :=
  pollWait verbose reqId
    { s with done := fun r => if r = reqId then false else s.done r } sched

/-- The bars an event list appends for a given request ID, in arrival
order. -/
def barsFor (reqId : Nat) (es : List GwEvent) : List Bar :=
  es.filterMap fun e =>
    match e with
    | .bar r b => if r = reqId then some b else none
    | _ => none

/-- Whether an event list carries an end-of-stream marker for the
request. -/
def hasEnd (reqId : Nat) (es : List GwEvent) : Bool :=
  es.any fun e =>
    match e with
    | .endOfStream r => r = reqId
    | _ => false

/-- One row of a per-timeframe raw table as built in
`get_historical_data`: the parsed `Date` value (epoch nanoseconds, the
`int64` view of the `pd.Timestamp`), the inferred `Timezone`, and the
OHLCV fields. -/
structure RawRow where
  dateNs : Int
  timezone : String
  open_ : Int
  high : Int
  low : Int
  close : Int
  volume : Int
  deriving Repr, DecidableEq

/-- A raw pandas table: its column set plus its rows.  Carrying the
column list lets the embedding model the `KeyError` raised when
`format_historical_data` selects a column the table lacks. -/
structure RawTable where
  cols : List String
  rows : List RawRow
  deriving Repr, DecidableEq

/-- The input columns `format_historical_data` reads from each table
(`Date` for the Timestamp computation, then the selected output
columns it does not itself assign). -/
def requiredCols : List String :=
  ["Date", "Timezone", "Open", "High", "Low", "Close", "Volume"]

/-- Column set of the tables `get_historical_data` builds. -/
def rawCols : List String :=
  ["Date", "Open", "High", "Low", "Close", "Volume", "Timezone"]

/-- One row of the formatted output table (the fixed column schema
Ticker/Timeframe/Timestamp/Date/Timezone/OHLCV). -/
structure OutRow where
  ticker : String
  timeframe : String
  timestamp : Int
  date : Int
  timezone : String
  open_ : Int
  high : Int
  low : Int
  close : Int
  volume : Int
  deriving Repr, DecidableEq

/-- The per-row work of `format_historical_data` (lines 231-250):
`Timestamp = Date.astype(int64) // 10**6` (floor division of epoch
nanoseconds), tag with symbol and timeframe, keep the other columns. -/
def mkOutRow (symbol timeframe : String) (r : RawRow) : OutRow :=
  { ticker := symbol, timeframe := timeframe,
    timestamp := Int.fdiv r.dateNs 1000000,
    date := r.dateNs, timezone := r.timezone,
    open_ := r.open_, high := r.high, low := r.low,
    close := r.close, volume := r.volume }

/-- The `try` body of `format_historical_data` (lines 222-262): walk the
timeframe-keyed tables in iteration order, skip `None`/empty ones,
transform the rest, and concatenate; reading a missing column raises
(`.error`). -/
def formatCore (symbol : String) :
    List (String × Option RawTable) → Except Unit (List OutRow)
  | [] => .ok []
  | (timeframe, df?) :: rest =>
    match df? with
    | none => formatCore symbol rest
    | some t =>
      if t.rows = [] then formatCore symbol rest
      else if requiredCols.all (fun c => t.cols.contains c) then
        match formatCore symbol rest with
        | .error e => .error e
        | .ok tail => .ok (t.rows.map (mkOutRow symbol timeframe) ++ tail)
      else .error ()

/-- `format_historical_data` (lines 201-268): the `try`/`except` wrapper
that converts any internal exception into an empty table.  The
`selected_timeframe` and `verbose` arguments are accepted as in the
source; neither affects the rows produced. -/
def format_historical_data (dfs : List (String × Option RawTable))
    (symbol : String) (selected_timeframe : String) (verbose : Nat) :
    List OutRow :=
  match formatCore symbol dfs with
  | .ok t => t
  | .error _ => []

/-- Two-table demonstration input for the formatter. -/
def demoDfs : List (String × Option RawTable) :=
  [("1 day", some ⟨rawCols, [⟨1729728000000000000, "US/Eastern", 10, 12, 9, 11, 1000⟩]⟩),
   ("1 week", some ⟨rawCols,
      [⟨1729123200000000000, "US/Eastern", 8, 11, 7, 10, 5000⟩,
       ⟨1729728000000000000, "US/Eastern", 10, 13, 9, 12, 5200⟩]⟩)]

/-- A table missing every column but `Date`: reading `Timezone` from it
raises inside the formatter. -/
def demoBadDfs : List (String × Option RawTable) :=
  [("1 day", some ⟨["Date"], [⟨0, "US/Eastern", 1, 2, 3, 4, 5⟩]⟩)]

/-- Days since the Unix epoch of a Gregorian calendar date (the standard
civil-calendar day count). -/
def daysFromCivil (y m d : Int) : Int :=
  let y := if m ≤ 2 then y - 1 else y
  let era := Int.fdiv y 400
  let yoe := y - era * 400
  let doy := Int.fdiv (153 * (if 2 < m then m - 3 else m + 9) + 2) 5 + d - 1
  let doe := yoe * 365 + Int.fdiv yoe 4 - Int.fdiv yoe 100 + doy
  era * 146097 + doe - 719468

/-- The `int64` view of a `pd.Timestamp`: epoch nanoseconds. -/
def tsToEpochNs (t : PTimestamp) : Int :=
  (daysFromCivil t.year t.month t.day * 86400
    + t.hour * 3600 + t.minute * 60 + t.second) * 1000000000

/-- Lines 450-453 of `get_historical_data`, per bar: compute the
`Timezone` column with `parse_ib_timezone`, then parse `Date` with
`parse_ib_datetime` — whose failure raises out of the loop (`none`). -/
def barToRow (b : Bar) : Option RawRow :=
  match parse_ib_datetime b.date with
  | none => none
  | some ts =>
    some ⟨tsToEpochNs ts, parse_ib_timezone b.date,
      b.open_, b.high, b.low, b.close, b.volume⟩

/-- `get_historical_data` (lines 400-469): issue each (duration, barSize)
config as request `idx + 1`, wait on its completion flag, and keep the
non-empty results keyed by bar size; a date-parse failure raises into the
outer handler, which returns `None`.  `reqSched` gives the callback
batches the background thread delivers during request `reqId`'s wait. -/
def get_historical_data (verbose : Nat) (symbol : String)
    (reqSched : Nat → List (List GwEvent)) :
    List (String × String) → Nat → SessionState →
      Option (List (String × RawTable)) × SessionState
  | [], _, s => (some [], s)
  | (_duration, bar_size) :: rest, idx, s =>
    let reqId := idx + 1
    let p := issueAndWait verbose reqId s (reqSched reqId)
    let s' := p.1
    if (s'.data reqId).isEmpty then
      get_historical_data verbose symbol reqSched rest (idx + 1) s'
    else
      match (s'.data reqId).mapM barToRow with
      | none => (none, s')
      | some rows =>
        let q := get_historical_data verbose symbol reqSched rest (idx + 1) s'
        match q.1 with
        | none => (none, q.2)
        | some tail => (some ((bar_size, ⟨rawCols, rows⟩) :: tail), q.2)

/-- A formatted output row after `add_index`: the 1-based `Index` column
appended by the orchestrator. -/
structure FinalRow where
  out : OutRow
  index : Nat
  deriving Repr, DecidableEq

/-- `add_index` (lines 472-483). -/
def add_index (df : List OutRow) : List FinalRow :=
  df.enum.map fun p => ⟨p.2, p.1 + 1⟩

/-- Python `x or default` on an optional string (`None` and `""` are
falsy). -/
def orStr (x : Option String) (d : String) : String :=
  match x with
  | none => d
  | some s => if s = "" then d else s

/-- Python `x or default` on an optional integer (`None` and `0` are
falsy). -/
def orNat (x : Option Nat) (d : Nat) : Nat :=
  match x with
  | none => d
  | some n => if n = 0 then d else n

/-- The process environment as far as this module reads it: the values of
IB_HOST / IB_PORT / IB_CLIENT_ID (ports and client IDs already parsed;
a non-integer value would abort module import before any call). -/
structure Env where
  ibHost : Option String
  ibPort : Option Nat
  ibClientId : Option Nat

/-- `os.getenv("IB_HOST", "127.0.0.1")` — the module-level `IB_HOST`. -/
def defaultHost (env : Env) : String := env.ibHost.getD "127.0.0.1"

/-- Module-level `IB_PORT`. -/
def defaultPort (env : Env) : Nat := env.ibPort.getD 4001

/-- Module-level `IB_CLIENT_ID`. -/
def defaultClientId (env : Env) : Nat := env.ibClientId.getD 123

/-- The gateway's behaviour for one connection: the callback batches
delivered during the connect wait and, per request ID, during that
request's completion wait. -/
structure Gateway where
  connectSched : List (List GwEvent)
  reqSched : Nat → List (List GwEvent)

/-- Outward connection actions of the client, in order. -/
inductive ConnEvent where
  | connect (host : String) (port : Nat) (clientId : Nat)
  | disconnect
  deriving Repr, DecidableEq

/-- The connect-wait loop of `get_ib_ticks` (lines 546-549): poll the
connected flag every 0.1 s (budget 10 s). -/
def connectWait (verbose : Nat) (s : SessionState)
    (sched : List (List GwEvent)) : SessionState × Nat :=
  pollLoop verbose (fun st => st.connected) s sched

/-- The body of `get_ib_ticks` between connect and the `finally` block
(lines 536-588): wait for the connection, retrieve, format, add the
index column; every failure point prints and yields `None`.  Returns the
table (or `none`) and the console log. -/
def ticksBody (gw : Gateway) (symbol duration barsize : String)
    (verbose : Nat) (show_bars : Bool) :
    Option (List FinalRow) × List String :=
  let initLog := if 1 ≤ verbose then ["API initialized", "Connecting"] else []
  let cw := connectWait verbose initSession gw.connectSched
  let s1 := cw.1
  if s1.connected = false then (none, initLog ++ ["Connection closed"])
  else
    let g := get_historical_data verbose symbol gw.reqSched
      [(duration, barsize)] 0 s1
    match g.1 with
    | none => (none, initLog ++ ["Data retrieval failed"])
    | some dfs =>
      if dfs.isEmpty then (none, initLog ++ ["Data retrieval failed"])
      else
        let df := format_historical_data
          (dfs.map fun p => (p.1, some p.2)) symbol barsize verbose
        let fin := add_index df
        if fin.isEmpty then (none, initLog ++ ["No data available"])
        else
          (some fin,
            initLog ++ (if 1 ≤ verbose then ["Statistics"] else []))

/-- The observable outcome of one `get_ib_ticks` call: the returned
table, the connection parameters actually used, the outward connection
actions, and the console log. -/
structure TicksRun where
  table : Option (List FinalRow)
  usedHost : String
  usedPort : Nat
  usedClientId : Nat
  trace : List ConnEvent
  log : List String

/-- The data a caller receives: the table and the connection parameters
used (console output excluded). -/
def TicksRun.result (r : TicksRun) :
    Option (List FinalRow) × String × Nat × Nat :=
  (r.table, r.usedHost, r.usedPort, r.usedClientId)

/-- `get_ib_ticks` (lines 486-594): resolve host/port/clientId with the
falsy-`or` against the module-level environment defaults, connect, run
the body, and always disconnect in the `finally` block. -/
def get_ib_ticks (env : Env) (gw : Gateway) (symbol : String)
    (duration barsize : String) (verbose : Nat) (show_bars : Bool)
    (host : Option String) (port : Option Nat) (client_id : Option Nat) :
    TicksRun :=
  let host := orStr host (defaultHost env)
  let port := orNat port (defaultPort env)
  let client_id := orNat client_id (defaultClientId env)
  let body := ticksBody gw symbol duration barsize verbose show_bars
  { table := body.1, usedHost := host, usedPort := port,
    usedClientId := client_id,
    trace := [ConnEvent.connect host port client_id, ConnEvent.disconnect],
    log := body.2 ++ (if 1 ≤ verbose then ["Disconnected"] else []) }

/-- Insert a row into a timestamp-sorted list (ascending). -/
def sortInsert (r : FinalRow) : List FinalRow → List FinalRow
  | [] => [r]
  | x :: xs =>
    if x.out.timestamp ≤ r.out.timestamp then x :: sortInsert r xs
    else r :: x :: xs

/-- `final_df.sort_values(["Timestamp"], ascending=True)` (line 666). -/
def sortByTimestamp (l : List FinalRow) : List FinalRow :=
  l.foldr sortInsert []

/-- The observable outcome of one `get_ib_ticks_multiple` call. -/
structure MultiRun where
  table : Option (List FinalRow)
  trace : List ConnEvent
  log : List String

/-- The iteration order of the nested loops of `get_ib_ticks_multiple`
(lines 636-637): every (symbol, timeframe) pair, symbols outermost. -/
def multiPairs (symbols : List String)
    (timeframes : List (String × String)) :
    List (String × String × String) :=
  (symbols.map fun sym => timeframes.map fun tf => (sym, tf)).flatten

/-- `get_ib_ticks_multiple` (lines 597-686): resolve unset connection
parameters from the environment — but only at verbosity ≥ 1 (lines
622-630) — then run the single-symbol flow once per (symbol, timeframe)
pair, each call with its own fresh connection (`gwStream` supplies the
gateway behaviour of the i-th connection), collect the non-`None`
tables, concatenate, and sort by epoch timestamp ascending. -/
def get_ib_ticks_multiple (env : Env) (gwStream : Nat → Gateway)
    (symbols : List String) (timeframes : List (String × String))
    (verbose : Nat) (show_bars : Bool) (host : Option String)
    (port : Option Nat) (client_id : Option Nat) : MultiRun :=
  let host := if host.isNone ∧ 1 ≤ verbose
    then some (defaultHost env) else host
  let port := if port.isNone ∧ 1 ≤ verbose
    then some (defaultPort env) else port
  let client_id := if client_id.isNone ∧ 1 ≤ verbose
    then some (defaultClientId env) else client_id
  let pairs := multiPairs symbols timeframes
  let runs := pairs.enum.map fun p =>
    get_ib_ticks env (gwStream p.1) p.2.1 p.2.2.1 p.2.2.2 verbose
      show_bars host port client_id
  let all_dfs := runs.filterMap TicksRun.table
  let trace := (runs.map TicksRun.trace).flatten
  let log := (runs.map TicksRun.log).flatten
  if all_dfs.isEmpty then
    { table := none, trace := trace, log := log ++ ["No data retrieved"] }
  else
    { table := some (sortByTimestamp all_dfs.flatten), trace := trace,
      log := log }

/-- Recognize a connect action. -/
def isConnect : ConnEvent → Bool
  | .connect _ _ _ => true
  | .disconnect => false

/-- Number of connections opened in a trace. -/
def connectCount (tr : List ConnEvent) : Nat :=
  (tr.filter isConnect).length

/-- A trace is a sequence of connect/disconnect pairs: every connection
is closed before the next one is opened. -/
def alternatesCD : List ConnEvent → Bool
  | [] => true
  | ConnEvent.connect _ _ _ :: ConnEvent.disconnect :: rest =>
      alternatesCD rest
  | _ => false

/-- Environment with nothing set: all defaults apply. -/
def demoEnv : Env := ⟨none, none, none⟩

/-- A gateway that never answers: every wait times out. -/
def emptyGw : Gateway := ⟨[], fun _ => []⟩

/-- A gateway that acknowledges the connection and answers every request
with one bar followed by the end-of-stream marker. -/
def demoGw : Gateway :=
  ⟨[[GwEvent.connAck, GwEvent.nextValid 1]],
   fun r => [[GwEvent.bar r ⟨"20241022", 10, 12, 9, 11, 1000⟩],
             [GwEvent.endOfStream r]]⟩

/-! ## Theorems about the claims -/

/-- A convenient unfolding of `parse_ib_timezone`. -/
theorem parse_ib_timezone_eq (x : String) :
    parse_ib_timezone x =
      if pyContains x '-' ∨ pyContains x '+' then "US/Eastern"
      else if 3 ≤ (pySplit x).length
          ∧ pyContains ((pySplit x).getLastD "") '/' then
        (pySplit x).getLastD ""
      else "US/Eastern" := rfl

/-- Claim C1: the claim says a two-token "YYYYMMDD HH:MM:SS" input parses to the
literal calendar fields; in the code, a two-token input makes
`parts[2]` an `IndexError` (the function's own docstring promises it
handles "20241024 15:30:00"), so parsing raises.  A single-token
"YYYYMMDD" input does give midnight of that date, and the fields are
recovered only when the date and time are separated by two spaces. -/
theorem c1_parse_ib_datetime_two_token_raises :
    parse_ib_datetime "20241024 15:30:00" = none
    ∧ parse_ib_datetime "20231124" = some ⟨2023, 11, 24, 0, 0, 0⟩
    ∧ parse_ib_datetime "20241024  15:30:00" =
        some ⟨2024, 10, 24, 15, 30, 0⟩ :=
  ⟨by decide, by decide, by decide⟩

/-- Claim C2: `parse_ib_timezone` returns "US/Eastern" whenever the input
contains '+' or '-' (even with a trailing zone name); otherwise, when the
single-space split has at least three fields and the last field contains
'/', it returns that field; otherwise "US/Eastern". -/
theorem c2_parse_ib_timezone_cases (x : String) :
    ((pyContains x '+' = true ∨ pyContains x '-' = true) →
        parse_ib_timezone x = "US/Eastern")
    ∧ (pyContains x '+' = false → pyContains x '-' = false →
        3 ≤ (pySplit x).length →
        pyContains ((pySplit x).getLastD "") '/' = true →
        parse_ib_timezone x = (pySplit x).getLastD "")
    ∧ (pyContains x '+' = false → pyContains x '-' = false →
        (3 ≤ (pySplit x).length →
          pyContains ((pySplit x).getLastD "") '/' = false) →
        parse_ib_timezone x = "US/Eastern") := by
  rw [parse_ib_timezone_eq]
  refine ⟨fun h => ?_, fun hp hm hlen hsl => ?_, fun hp hm himp => ?_⟩
  · rcases h with h | h
    · exact if_pos (Or.inr h)
    · exact if_pos (Or.inl h)
  · rw [if_neg (by simp [hp, hm]), if_pos ⟨hlen, hsl⟩]
  · rw [if_neg (by simp [hp, hm])]
    exact if_neg (fun hand =>
      Bool.false_ne_true ((himp hand.1).symm.trans hand.2))

/-- Claim C2 witness: a concrete offset-free input with an explicit trailing
zone name returns that zone name. -/
theorem c2_witness :
    pyContains "20240101 09:30:00 America/New_York" '+' = false
    ∧ parse_ib_timezone "20240101 09:30:00 America/New_York" =
        "America/New_York" :=
  ⟨by decide,
    (c2_parse_ib_timezone_cases "20240101 09:30:00 America/New_York").2.1
      (by decide) (by decide) (by decide) (by decide)⟩

/-- Claim C3 counterexample: 162 is in the code's critical list, yet processing
it at verbosity 0 leaves the connected flag true. -/
theorem c3_counterexample :
    162 ∈ MarketDataApp.critical_errors
    ∧ (MarketDataApp.error 0 true 162).1 = true := by
  constructor
  · decide
  · rfl

/-- Claim C3 amended: only the connection-level subset 504/1100/1101/1102 of
the critical list forces the connected flag false, at every verbosity and
from any prior state; the remaining critical codes 162/200/321 are always
surfaced on the console but leave the connected flag unchanged. -/
theorem c3_amended_connection_codes (code verbose : Nat) (connected : Bool)
    (hcode : code ∈ [504, 1100, 1101, 1102]) :
    (MarketDataApp.error verbose connected code).1 = false
    ∧ ∀ c ∈ [162, 200, 321],
        (MarketDataApp.error verbose connected c).1 = connected
        ∧ (MarketDataApp.error verbose connected c).2 ≠ [] := by
  constructor
  · rw [MarketDataApp.error_fst, if_pos hcode]
  · intro c hc
    have hnotd : ¬ c ∈ [504, 1100, 1101, 1102] := by
      simp only [List.mem_cons, List.not_mem_nil, or_false] at hc ⊢
      rcases hc with h | h | h <;> subst h <;> decide
    have hcrit : c ∈ MarketDataApp.critical_errors := by
      simp only [MarketDataApp.critical_errors, List.mem_cons,
        List.not_mem_nil, or_false] at hc ⊢
      tauto
    have hfarm : ¬ c ∈ [2104, 2106, 2158] := by
      simp only [List.mem_cons, List.not_mem_nil, or_false] at hc ⊢
      rcases hc with h | h | h <;> subst h <;> decide
    have h76 : ¬ c = 2176 := by
      simp only [List.mem_cons, List.not_mem_nil, or_false] at hc
      rcases hc with h | h | h <;> subst h <;> decide
    refine ⟨?_, ?_⟩
    · rw [MarketDataApp.error_fst, if_neg hnotd]
    · rw [MarketDataApp.error_snd_critical verbose connected c hcrit hfarm h76]
      simp

/-- Claim C3 amended witness: code 1100 at verbosity 2 clears the flag, and
code 162 there keeps it while still printing. -/
theorem c3_amended_witness :
    1100 ∈ [504, 1100, 1101, 1102]
    ∧ (MarketDataApp.error 2 true 1100).1 = false
    ∧ (MarketDataApp.error 2 true 162).1 = true :=
  ⟨by decide, (c3_amended_connection_codes 1100 2 true (by decide)).1,
    ((c3_amended_connection_codes 1100 2 true (by decide)).2 162
      (by decide)).1⟩

/-- `barsFor` splits over concatenation. -/
theorem barsFor_append (reqId : Nat) (a b : List GwEvent) :
    barsFor reqId (a ++ b) = barsFor reqId a ++ barsFor reqId b :=
  List.filterMap_append a b _

/-- `hasEnd` splits over concatenation. -/
theorem hasEnd_append (reqId : Nat) (a b : List GwEvent) :
    hasEnd reqId (a ++ b) = (hasEnd reqId a || hasEnd reqId b) :=
  List.any_append

/-- One event changes a request's bar list exactly by the bars it
carries for that request. -/
theorem applyEvent_data (v : Nat) (s : SessionState) (e : GwEvent)
    (r : Nat) :
    (applyEvent v s e).data r = s.data r ++ barsFor r [e] := by
  cases e with
  | bar r' b =>
    by_cases h : r = r'
    · subst h
      simp [applyEvent, MarketDataApp.historicalData, barsFor]
    · simp [applyEvent, MarketDataApp.historicalData, barsFor, h, Ne.symm h]
  | endOfStream r' => simp [applyEvent, MarketDataApp.historicalDataEnd, barsFor]
  | err r' c => simp [applyEvent, barsFor]
  | connAck => simp [applyEvent, MarketDataApp.connectAckCb, barsFor]
  | nextValid o => simp [applyEvent, MarketDataApp.nextValidId, barsFor]

/-- One event changes a request's completion flag exactly when it is the
request's end-of-stream marker. -/
theorem applyEvent_done (v : Nat) (s : SessionState) (e : GwEvent)
    (r : Nat) :
    (applyEvent v s e).done r = (s.done r || hasEnd r [e]) := by
  cases e with
  | bar r' b => simp [applyEvent, MarketDataApp.historicalData, hasEnd]
  | endOfStream r' =>
    by_cases h : r = r'
    · subst h
      simp [applyEvent, MarketDataApp.historicalDataEnd, hasEnd]
    · simp [applyEvent, MarketDataApp.historicalDataEnd, hasEnd, h, Ne.symm h]
  | err r' c => simp [applyEvent, hasEnd]
  | connAck => simp [applyEvent, MarketDataApp.connectAckCb, hasEnd]
  | nextValid o => simp [applyEvent, MarketDataApp.nextValidId, hasEnd]

/-- Delivering a batch appends exactly its bars for each request, in
arrival order. -/
theorem applyEvents_data (v : Nat) (es : List GwEvent) (s : SessionState)
    (r : Nat) :
    (applyEvents v s es).data r = s.data r ++ barsFor r es := by
  induction es generalizing s with
  | nil => simp [applyEvents, barsFor]
  | cons e es ih =>
    have : e :: es = [e] ++ es := rfl
    rw [this, barsFor_append]
    show (applyEvents v (applyEvent v s e) es).data r = _
    rw [ih, applyEvent_data, List.append_assoc]

/-- Delivering a batch completes exactly the requests whose end-of-stream
marker it carries. -/
theorem applyEvents_done (v : Nat) (es : List GwEvent) (s : SessionState)
    (r : Nat) :
    (applyEvents v s es).done r = (s.done r || hasEnd r es) := by
  induction es generalizing s with
  | nil => simp [applyEvents, hasEnd]
  | cons e es ih =>
    have : e :: es = [e] ++ es := rfl
    rw [this, hasEnd_append]
    show (applyEvents v (applyEvent v s e) es).done r = _
    rw [ih, applyEvent_done, Bool.or_assoc]

/-- A poll loop whose flag is already set exits at once, consuming
nothing. -/
theorem pollLoop_of_check (v : Nat) (check : SessionState → Bool)
    (s : SessionState) (sched : List (List GwEvent))
    (h : check s = true) :
    pollLoop v check s sched = (s, 0) := by
  cases sched <;> simp [pollLoop, h]

/-- The state a completion wait exits in holds exactly the bars delivered
by the consumed schedule prefix, appended in arrival order. -/
theorem pollWait_data (v r : Nat) (s : SessionState)
    (sched : List (List GwEvent)) :
    (pollWait v r s sched).1.data r
      = s.data r
        ++ barsFor r ((sched.take (pollWait v r s sched).2).flatten) := by
  induction sched generalizing s with
  | nil => simp [pollWait, pollLoop, barsFor]
  | cons batch rest ih =>
    by_cases h : s.done r
    · simp [pollWait, pollLoop, h, barsFor]
    · have hstep : pollWait v r s (batch :: rest)
          = ((pollWait v r (applyEvents v s batch) rest).1,
             (pollWait v r (applyEvents v s batch) rest).2 + 1) := by
        show pollLoop v _ s (batch :: rest) = _
        rw [pollLoop, if_neg h]
        rfl
      rw [hstep]
      dsimp only
      rw [ih (applyEvents v s batch), applyEvents_data,
        List.take_succ_cons, List.flatten_cons, barsFor_append,
        List.append_assoc]

/-- The completion flag at exit is its initial value joined with the
end-of-stream markers in the consumed prefix. -/
theorem pollWait_done (v r : Nat) (s : SessionState)
    (sched : List (List GwEvent)) :
    (pollWait v r s sched).1.done r
      = (s.done r
          || hasEnd r ((sched.take (pollWait v r s sched).2).flatten)) := by
  induction sched generalizing s with
  | nil => simp [pollWait, pollLoop, hasEnd]
  | cons batch rest ih =>
    by_cases h : s.done r
    · simp [pollWait, pollLoop, h, hasEnd]
    · have hstep : pollWait v r s (batch :: rest)
          = ((pollWait v r (applyEvents v s batch) rest).1,
             (pollWait v r (applyEvents v s batch) rest).2 + 1) := by
        show pollLoop v _ s (batch :: rest) = _
        rw [pollLoop, if_neg h]
        rfl
      rw [hstep]
      dsimp only
      rw [ih (applyEvents v s batch), applyEvents_done,
        List.take_succ_cons, List.flatten_cons, hasEnd_append,
        Bool.or_assoc]

/-- Once the awaited flag has been observed, extending the schedule with
further poll intervals changes nothing: no further polling happens. -/
theorem pollLoop_extend (v : Nat) (check : SessionState → Bool)
    (s : SessionState) (sched : List (List GwEvent))
    (h : check (pollLoop v check s sched).1 = true) :
    ∀ extra, pollLoop v check s (sched ++ extra)
      = pollLoop v check s sched := by
  induction sched generalizing s with
  | nil =>
    intro extra
    have hs : check s = true := h
    simp [pollLoop_of_check v check s extra hs, pollLoop]
  | cons batch rest ih =>
    intro extra
    by_cases hc : check s = true
    · simp [pollLoop, hc]
    · have h' : check (pollLoop v check (applyEvents v s batch) rest).1
          = true := by
        simpa [pollLoop, hc] using h
      simp [pollLoop, hc, ih (applyEvents v s batch) h' extra]

/-- A wait that exits with schedule budget to spare exited through the
flag check. -/
theorem pollLoop_early_check (v : Nat) (check : SessionState → Bool)
    (s : SessionState) (sched : List (List GwEvent))
    (h : (pollLoop v check s sched).2 < sched.length) :
    check (pollLoop v check s sched).1 = true := by
  induction sched generalizing s with
  | nil => simp [pollLoop] at h
  | cons batch rest ih =>
    by_cases hc : check s = true
    · simp [pollLoop, hc]
    · have h' : (pollLoop v check (applyEvents v s batch) rest).2
          < rest.length := by
        simpa [pollLoop, hc, Nat.succ_lt_succ_iff] using h
      simpa [pollLoop, hc] using ih (applyEvents v s batch) h'

/-- Claim C4: if the completion flag is observed true, the wait stops polling
(extending the schedule changes nothing) and the per-request result is
exactly the sequence of bars the callback appended for that ID, in
arrival order. -/
theorem c4_retriever_complete (v reqId : Nat) (s : SessionState)
    (sched : List (List GwEvent))
    (hdata : s.data reqId = [])
    (hcomplete : (pollWait v reqId s sched).1.done reqId = true) :
    (pollWait v reqId s sched).1.data reqId
      = barsFor reqId ((sched.take (pollWait v reqId s sched).2).flatten)
    ∧ ∀ extra, pollWait v reqId s (sched ++ extra)
        = pollWait v reqId s sched := by
  constructor
  · rw [pollWait_data, hdata, List.nil_append]
  · exact pollLoop_extend v _ s sched hcomplete

/-- Claim C4 witness: a request completed in the second poll interval returns
its two bars in arrival order and ignores an appended third interval. -/
theorem c4_witness :
    initSession.data 1 = []
    ∧ (pollWait 1 1 initSession
        [[GwEvent.bar 1 ⟨"20241022", 10, 12, 9, 11, 1000⟩],
         [GwEvent.bar 1 ⟨"20241023", 11, 13, 10, 12, 1100⟩,
          GwEvent.endOfStream 1]]).1.data 1
      = barsFor 1 (([[GwEvent.bar 1 ⟨"20241022", 10, 12, 9, 11, 1000⟩],
         [GwEvent.bar 1 ⟨"20241023", 11, 13, 10, 12, 1100⟩,
          GwEvent.endOfStream 1]].take
            (pollWait 1 1 initSession
              [[GwEvent.bar 1 ⟨"20241022", 10, 12, 9, 11, 1000⟩],
               [GwEvent.bar 1 ⟨"20241023", 11, 13, 10, 12, 1100⟩,
                GwEvent.endOfStream 1]]).2).flatten) :=
  ⟨rfl,
    (c4_retriever_complete 1 1 initSession
      [[GwEvent.bar 1 ⟨"20241022", 10, 12, 9, 11, 1000⟩],
       [GwEvent.bar 1 ⟨"20241023", 11, 13, 10, 12, 1100⟩,
        GwEvent.endOfStream 1]] rfl rfl).1⟩

/-- Claim C5: if no end-of-stream marker for the request arrives within the
budget, the wait consumes the entire budget (the full 30 s timeout), the
flag is still false, and the loop returns normally with whatever bars —
possibly zero — were accumulated for that request. -/
theorem c5_retriever_timeout (v reqId : Nat) (s : SessionState)
    (sched : List (List GwEvent))
    (hdone : s.done reqId = false)
    (hnoend : hasEnd reqId sched.flatten = false) :
    (pollWait v reqId s sched).2 = sched.length
    ∧ (pollWait v reqId s sched).1.done reqId = false
    ∧ (pollWait v reqId s sched).1.data reqId
        = s.data reqId ++ barsFor reqId sched.flatten := by
  have hlen : (pollWait v reqId s sched).2 = sched.length := by
    induction sched generalizing s with
    | nil => simp [pollWait, pollLoop]
    | cons batch rest ih =>
      have hsplit := hnoend
      rw [List.flatten_cons, hasEnd_append] at hsplit
      have hb : hasEnd reqId batch = false :=
        (Bool.or_eq_false_iff.mp hsplit).1
      have hr : hasEnd reqId rest.flatten = false :=
        (Bool.or_eq_false_iff.mp hsplit).2
      have hd' : (applyEvents v s batch).done reqId = false := by
        rw [applyEvents_done, hdone, hb]
        rfl
      have hstep : pollWait v reqId s (batch :: rest)
          = ((pollWait v reqId (applyEvents v s batch) rest).1,
             (pollWait v reqId (applyEvents v s batch) rest).2 + 1) := by
        show pollLoop v _ s (batch :: rest) = _
        rw [pollLoop, if_neg (by simp [hdone])]
        rfl
      rw [hstep]
      dsimp only
      rw [ih (applyEvents v s batch) hd' hr, List.length_cons]
  refine ⟨hlen, ?_, ?_⟩
  · rw [pollWait_done, hlen, List.take_length, hdone, hnoend]
    rfl
  · rw [pollWait_data, hlen, List.take_length]

/-- Claim C5 witness: with bars but no end marker, the full two-interval budget
is consumed and both bars are returned. -/
theorem c5_witness :
    initSession.done 1 = false
    ∧ (pollWait 1 1 initSession
        [[GwEvent.bar 1 ⟨"20241022", 10, 12, 9, 11, 1000⟩],
         [GwEvent.bar 1 ⟨"20241023", 11, 13, 10, 12, 1100⟩]]).2 = 2
    ∧ (pollWait 1 1 initSession
        [[GwEvent.bar 1 ⟨"20241022", 10, 12, 9, 11, 1000⟩],
         [GwEvent.bar 1 ⟨"20241023", 11, 13, 10, 12, 1100⟩]]).1.data 1
      = initSession.data 1
        ++ barsFor 1 [GwEvent.bar 1 ⟨"20241022", 10, 12, 9, 11, 1000⟩,
            GwEvent.bar 1 ⟨"20241023", 11, 13, 10, 12, 1100⟩] :=
  ⟨rfl,
    (c5_retriever_timeout 1 1 initSession
      [[GwEvent.bar 1 ⟨"20241022", 10, 12, 9, 11, 1000⟩],
       [GwEvent.bar 1 ⟨"20241023", 11, 13, 10, 12, 1100⟩]] rfl rfl).1,
    (c5_retriever_timeout 1 1 initSession
      [[GwEvent.bar 1 ⟨"20241022", 10, 12, 9, 11, 1000⟩],
       [GwEvent.bar 1 ⟨"20241023", 11, 13, 10, 12, 1100⟩]] rfl rfl).2.2⟩

/-- Claim C10: because the retriever resets the request's completion flag to
false before waiting, the wait can only exit with budget to spare if the
flag was observed true, and the flag can only be true at exit if an
end-of-stream callback for the current request ran within the consumed
prefix — a flag left true by an earlier request never satisfies the
wait. -/
theorem c10_reset_guards_completion (v reqId : Nat) (s : SessionState)
    (sched : List (List GwEvent)) :
    ((issueAndWait v reqId s sched).2 < sched.length →
      (issueAndWait v reqId s sched).1.done reqId = true)
    ∧ ((issueAndWait v reqId s sched).1.done reqId = true →
      hasEnd reqId
        ((sched.take (issueAndWait v reqId s sched).2).flatten) = true) := by
  constructor
  · intro hlt
    exact pollLoop_early_check v _ _ sched hlt
  · intro hdone
    have h := pollWait_done v reqId
      { s with done := fun r => if r = reqId then false else s.done r } sched
    simp only [if_pos rfl] at h
    have hd : (issueAndWait v reqId s sched).1.done reqId
        = hasEnd reqId
            ((sched.take (issueAndWait v reqId s sched).2).flatten) := by
      simpa [issueAndWait, Bool.false_or] using h
    rw [← hd]
    exact hdone

/-- Claim C10 witness: a session whose flag for request 1 is stale-true still
waits until the end-of-stream event of the current request arrives. -/
theorem c10_witness :
    ({ initSession with done := fun _ => true } : SessionState).done 1 = true
    ∧ (issueAndWait 1 1 { initSession with done := fun _ => true }
        [[GwEvent.bar 1 ⟨"20241022", 10, 12, 9, 11, 1000⟩],
         [GwEvent.endOfStream 1], []]).1.done 1 = true
    ∧ hasEnd 1
        (([[GwEvent.bar 1 ⟨"20241022", 10, 12, 9, 11, 1000⟩],
           [GwEvent.endOfStream 1], []].take
            (issueAndWait 1 1 { initSession with done := fun _ => true }
              [[GwEvent.bar 1 ⟨"20241022", 10, 12, 9, 11, 1000⟩],
               [GwEvent.endOfStream 1], []]).2).flatten) = true :=
  ⟨rfl, rfl,
    (c10_reset_guards_completion 1 1
      { initSession with done := fun _ => true }
      [[GwEvent.bar 1 ⟨"20241022", 10, 12, 9, 11, 1000⟩],
       [GwEvent.endOfStream 1], []]).2 rfl⟩

/-- When every table is present, non-empty and has the required columns,
the formatter's core succeeds and returns the per-table transforms
concatenated in iteration order. -/
theorem formatCore_ok (symbol : String)
    (dfs : List (String × Option RawTable))
    (hall : ∀ p ∈ dfs, ∃ t, p.2 = some t ∧ t.rows ≠ []
        ∧ requiredCols.all (fun c => t.cols.contains c) = true) :
    formatCore symbol dfs
      = .ok ((dfs.map fun p =>
          (p.2.elim [] RawTable.rows).map (mkOutRow symbol p.1)).flatten) := by
  induction dfs with
  | nil => rfl
  | cons p rest ih =>
    obtain ⟨t, hsome, hne, hcols⟩ := hall p (List.mem_cons_self p rest)
    have hrest := ih fun q hq => hall q (List.mem_cons_of_mem p hq)
    obtain ⟨tf, df?⟩ := p
    simp only at hsome
    subst hsome
    show formatCore symbol ((tf, some t) :: rest) = _
    rw [formatCore]
    simp only [if_neg hne, if_pos hcols, hrest, List.map_cons,
      List.flatten_cons, Option.elim_some]

/-- Claim C6: on a mapping of present, non-empty tables the formatter returns
the concatenation of the per-table transforms in input iteration order
(row order preserved, no re-sort), its row count is the sum of the input
row counts, and every output row is tagged with the given symbol; the
timeframe tag of each row is the label of its source table, visible in
the concatenation equation through `mkOutRow symbol p.1`. -/
theorem c6_format_concat (dfs : List (String × Option RawTable))
    (symbol selected_timeframe : String) (verbose : Nat)
    (h2 : 2 ≤ dfs.length)
    (hall : ∀ p ∈ dfs, ∃ t, p.2 = some t ∧ t.rows ≠ []
        ∧ requiredCols.all (fun c => t.cols.contains c) = true) :
    format_historical_data dfs symbol selected_timeframe verbose
      = (dfs.map fun p =>
          (p.2.elim [] RawTable.rows).map (mkOutRow symbol p.1)).flatten
    ∧ (format_historical_data dfs symbol selected_timeframe verbose).length
      = (dfs.map fun p => (p.2.elim [] RawTable.rows).length).sum
    ∧ ∀ o ∈ format_historical_data dfs symbol selected_timeframe verbose,
        o.ticker = symbol := by
  have hok := formatCore_ok symbol dfs hall
  have heq : format_historical_data dfs symbol selected_timeframe verbose
      = (dfs.map fun p =>
          (p.2.elim [] RawTable.rows).map (mkOutRow symbol p.1)).flatten := by
    unfold format_historical_data
    rw [hok]
  refine ⟨heq, ?_, ?_⟩
  · rw [heq, List.length_flatten]
    simp [Function.comp_def]
  · intro o ho
    rw [heq] at ho
    simp only [List.mem_flatten, List.mem_map] at ho
    obtain ⟨l, ⟨q, _, rfl⟩, hol⟩ := ho
    simp only [List.mem_map] at hol
    obtain ⟨r, _, rfl⟩ := hol
    rfl

/-- Claim C6 witness: two non-empty tables of one and two rows produce a
three-row combined table equal to the ordered concatenation. -/
theorem c6_witness :
    2 ≤ demoDfs.length
    ∧ format_historical_data demoDfs "SPY" "1 day" 1
        = (demoDfs.map fun p =>
            (p.2.elim [] RawTable.rows).map (mkOutRow "SPY" p.1)).flatten
    ∧ (format_historical_data demoDfs "SPY" "1 day" 1).length = 3 := by
  have hall : ∀ p ∈ demoDfs, ∃ t, p.2 = some t ∧ t.rows ≠ []
      ∧ requiredCols.all (fun c => t.cols.contains c) = true := by
    intro p hp
    simp only [demoDfs, List.mem_cons, List.not_mem_nil, or_false] at hp
    rcases hp with h | h <;> subst h <;>
      exact ⟨_, rfl, by decide, by decide⟩
  have h := c6_format_concat demoDfs "SPY" "1 day" 1 (by decide) hall
  refine ⟨by decide, h.1, ?_⟩
  rw [h.2.1]
  decide

/-- Claim C7: whenever the formatter's body raises internally, the wrapper
returns the empty table instead of propagating the exception. -/
theorem c7_format_swallows (dfs : List (String × Option RawTable))
    (symbol selected_timeframe : String) (verbose : Nat) (e : Unit)
    (herr : formatCore symbol dfs = .error e) :
    format_historical_data dfs symbol selected_timeframe verbose = [] := by
  unfold format_historical_data
  rw [herr]

/-- Claim C7 witness: a non-empty table lacking the Timezone column makes the
core raise, and the wrapper returns the empty table. -/
theorem c7_witness :
    formatCore "SPY" demoBadDfs = .error ()
    ∧ format_historical_data demoBadDfs "SPY" "1 day" 1 = [] :=
  ⟨rfl, c7_format_swallows demoBadDfs "SPY" "1 day" 1 () rfl⟩

/-- Pointwise-equal functions give equal `filterMap`s. -/
theorem filterMap_congr_mem {α β : Type} (f g : α → Option β)
    (l : List α) (h : ∀ a ∈ l, f a = g a) :
    l.filterMap f = l.filterMap g := by
  induction l with
  | nil => rfl
  | cons a t ih =>
    rw [List.filterMap_cons, List.filterMap_cons,
      h a (List.mem_cons_self a t),
      ih fun b hb => h b (List.mem_cons_of_mem a hb)]

/-- Delivering one event does not depend on the verbosity level: prints
are the only use the callbacks make of it. -/
theorem applyEvent_verbose (v1 v2 : Nat) (s : SessionState) (e : GwEvent) :
    applyEvent v1 s e = applyEvent v2 s e := by
  cases e with
  | bar r b => rfl
  | endOfStream r => rfl
  | err r code => simp only [applyEvent, MarketDataApp.error_fst]
  | connAck => rfl
  | nextValid o => rfl

/-- Delivering a batch does not depend on the verbosity level. -/
theorem applyEvents_verbose (v1 v2 : Nat) (es : List GwEvent)
    (s : SessionState) :
    applyEvents v1 s es = applyEvents v2 s es := by
  induction es generalizing s with
  | nil => rfl
  | cons e es ih =>
    show applyEvents v1 (applyEvent v1 s e) es = _
    rw [applyEvent_verbose v1 v2, ih]
    rfl

/-- The poll loops do not depend on the verbosity level. -/
theorem pollLoop_verbose (v1 v2 : Nat) (check : SessionState → Bool)
    (s : SessionState) (sched : List (List GwEvent)) :
    pollLoop v1 check s sched = pollLoop v2 check s sched := by
  induction sched generalizing s with
  | nil => rfl
  | cons batch rest ih =>
    by_cases hc : check s = true
    · simp [pollLoop, hc]
    · simp only [pollLoop, hc, if_neg Bool.false_ne_true]
      rw [applyEvents_verbose v1 v2, ih]

/-- The per-request issue-and-wait does not depend on verbosity. -/
theorem issueAndWait_verbose (v1 v2 reqId : Nat) (s : SessionState)
    (sched : List (List GwEvent)) :
    issueAndWait v1 reqId s sched = issueAndWait v2 reqId s sched :=
  pollLoop_verbose v1 v2 _ _ sched

/-- `get_historical_data` returns the same tables and final state at
every verbosity. -/
theorem get_historical_data_verbose (v1 v2 : Nat) (symbol : String)
    (reqSched : Nat → List (List GwEvent))
    (cfgs : List (String × String)) (idx : Nat) (s : SessionState) :
    get_historical_data v1 symbol reqSched cfgs idx s
      = get_historical_data v2 symbol reqSched cfgs idx s := by
  induction cfgs generalizing idx s with
  | nil => rfl
  | cons cfg rest ih =>
    obtain ⟨dur, bsz⟩ := cfg
    simp only [get_historical_data]
    rw [issueAndWait_verbose v1 v2, ih]

/-- `format_historical_data` ignores its verbosity argument. -/
theorem format_historical_data_verbose
    (dfs : List (String × Option RawTable)) (symbol tf : String)
    (v1 v2 : Nat) :
    format_historical_data dfs symbol tf v1
      = format_historical_data dfs symbol tf v2 := rfl

/-- The table computed by the body of `get_ib_ticks` does not depend on
verbosity or on the bar-display flag. -/
theorem ticksBody_fst_verbose (gw : Gateway)
    (symbol duration barsize : String) (v1 v2 : Nat) (sb1 sb2 : Bool) :
    (ticksBody gw symbol duration barsize v1 sb1).1
      = (ticksBody gw symbol duration barsize v2 sb2).1 := by
  simp only [ticksBody, connectWait]
  rw [pollLoop_verbose v1 v2, get_historical_data_verbose v1 v2]
  cases hconn :
      (pollLoop v2 (fun st => st.connected) initSession
        gw.connectSched).1.connected with
  | false => simp [hconn]
  | true =>
    simp only [hconn, if_neg (by decide : ¬ (true = false))]
    cases hg : (get_historical_data v2 symbol gw.reqSched
        [(duration, barsize)] 0
        (pollLoop v2 (fun st => st.connected) initSession
          gw.connectSched).1).1 with
    | none => simp [hg]
    | some dfs =>
      simp only [hg]
      by_cases hdfs : dfs.isEmpty = true
      · simp [hdfs]
      · simp only [if_neg hdfs]
        rw [format_historical_data_verbose _ _ _ v1 v2]
        by_cases hfin : (add_index (format_historical_data
            (dfs.map fun p => (p.1, some p.2)) symbol barsize
            v2)).isEmpty = true
        · simp [hfin]
        · simp [hfin]

/-- Resolving an unset option to the module default before the falsy-`or`
changes nothing: `orStr` lands on the same value either way. -/
theorem orStr_resolve (x : Option String) (c : Prop) [Decidable c]
    (d : String) :
    orStr (if x.isNone ∧ c then some d else x) d = orStr x d := by
  by_cases h : x.isNone ∧ c
  · rw [if_pos h, Option.isNone_iff_eq_none.mp h.1]
    show (if d = "" then d else d) = d
    rw [ite_self]
  · rw [if_neg h]

/-- Same for the falsy-`or` on integers. -/
theorem orNat_resolve (x : Option Nat) (c : Prop) [Decidable c]
    (d : Nat) :
    orNat (if x.isNone ∧ c then some d else x) d = orNat x d := by
  by_cases h : x.isNone ∧ c
  · rw [if_pos h, Option.isNone_iff_eq_none.mp h.1]
    show (if d = 0 then d else d) = d
    rw [ite_self]
  · rw [if_neg h]

/-- `get_ib_ticks` behaves identically whether an unset connection
parameter is passed as `None` or pre-resolved to the module default, as
`get_ib_ticks_multiple` does at verbosity ≥ 1. -/
theorem get_ib_ticks_args_norm (env : Env) (gw : Gateway)
    (symbol duration barsize : String) (v : Nat) (sb : Bool)
    (host : Option String) (port client_id : Option Nat)
    (c1 c2 c3 : Prop) [Decidable c1] [Decidable c2] [Decidable c3] :
    get_ib_ticks env gw symbol duration barsize v sb
      (if host.isNone ∧ c1 then some (defaultHost env) else host)
      (if port.isNone ∧ c2 then some (defaultPort env) else port)
      (if client_id.isNone ∧ c3 then some (defaultClientId env)
        else client_id)
      = get_ib_ticks env gw symbol duration barsize v sb host port
          client_id := by
  simp only [get_ib_ticks, orStr_resolve, orNat_resolve]

/-- The table `get_ib_ticks` returns, normalized to a verbosity-free
form. -/
theorem get_ib_ticks_table_norm (env : Env) (gw : Gateway)
    (symbol duration barsize : String) (v : Nat) (sb : Bool)
    (host : Option String) (port client_id : Option Nat) :
    (get_ib_ticks env gw symbol duration barsize v sb host port
        client_id).table
      = (ticksBody gw symbol duration barsize 0 false).1 := by
  simp only [get_ib_ticks]
  exact ticksBody_fst_verbose gw symbol duration barsize v 0 sb false

/-- Every `get_ib_ticks` call connects exactly once with the resolved
parameters and disconnects exactly once, in that order. -/
theorem get_ib_ticks_trace_eq (env : Env) (gw : Gateway)
    (symbol duration barsize : String) (v : Nat) (sb : Bool)
    (host : Option String) (port client_id : Option Nat) :
    (get_ib_ticks env gw symbol duration barsize v sb host port
        client_id).trace
      = [ConnEvent.connect (orStr host (defaultHost env))
          (orNat port (defaultPort env))
          (orNat client_id (defaultClientId env)),
         ConnEvent.disconnect] := rfl

/-- The used connection parameters of a `get_ib_ticks` call. -/
theorem get_ib_ticks_used_eq (env : Env) (gw : Gateway)
    (symbol duration barsize : String) (v : Nat) (sb : Bool)
    (host : Option String) (port client_id : Option Nat) :
    (get_ib_ticks env gw symbol duration barsize v sb host port
          client_id).usedHost = orStr host (defaultHost env)
    ∧ (get_ib_ticks env gw symbol duration barsize v sb host port
          client_id).usedPort = orNat port (defaultPort env)
    ∧ (get_ib_ticks env gw symbol duration barsize v sb host port
          client_id).usedClientId
        = orNat client_id (defaultClientId env) :=
  ⟨rfl, rfl, rfl⟩

/-- The table `get_ib_ticks_multiple` returns, normalized to a form free
of the verbosity level, the bar-display flag and the optional connection
arguments. -/
theorem get_ib_ticks_multiple_table_norm (env : Env)
    (gwStream : Nat → Gateway) (symbols : List String)
    (timeframes : List (String × String)) (v : Nat) (sb : Bool)
    (host : Option String) (port client_id : Option Nat) :
    (get_ib_ticks_multiple env gwStream symbols timeframes v sb host
        port client_id).table
      = (if ((multiPairs symbols timeframes).enum.filterMap fun p =>
            (ticksBody (gwStream p.1) p.2.1 p.2.2.1 p.2.2.2 0
              false).1).isEmpty
          then none
          else some (sortByTimestamp
            ((multiPairs symbols timeframes).enum.filterMap fun p =>
              (ticksBody (gwStream p.1) p.2.1 p.2.2.1 p.2.2.2 0
                false).1).flatten)) := by
  have hfm : ((multiPairs symbols timeframes).enum.map fun p =>
        get_ib_ticks env (gwStream p.1) p.2.1 p.2.2.1 p.2.2.2 v sb
          (if host.isNone ∧ 1 ≤ v then some (defaultHost env) else host)
          (if port.isNone ∧ 1 ≤ v then some (defaultPort env) else port)
          (if client_id.isNone ∧ 1 ≤ v then some (defaultClientId env)
            else client_id)).filterMap TicksRun.table
      = (multiPairs symbols timeframes).enum.filterMap fun p =>
          (ticksBody (gwStream p.1) p.2.1 p.2.2.1 p.2.2.2 0 false).1 := by
    rw [List.filterMap_map]
    exact filterMap_congr_mem _ _ _ fun p _ => by
      show (get_ib_ticks env (gwStream p.1) p.2.1 p.2.2.1 p.2.2.2 v sb
        _ _ _).table = _
      rw [get_ib_ticks_table_norm]
  simp only [get_ib_ticks_multiple]
  rw [hfm]
  by_cases hE : ((multiPairs symbols timeframes).enum.filterMap fun p =>
      (ticksBody (gwStream p.1) p.2.1 p.2.2.1 p.2.2.2 0
        false).1).isEmpty = true
  · simp only [hE, if_pos trivial, if_true]
  · simp only [hE, if_false, Bool.false_eq_true, if_neg hE]

/-- The connection trace of `get_ib_ticks_multiple`, normalized: one
connect with the resolved parameters followed by one disconnect, per
(symbol, timeframe) pair. -/
theorem get_ib_ticks_multiple_trace_norm (env : Env)
    (gwStream : Nat → Gateway) (symbols : List String)
    (timeframes : List (String × String)) (v : Nat) (sb : Bool)
    (host : Option String) (port client_id : Option Nat) :
    (get_ib_ticks_multiple env gwStream symbols timeframes v sb host
        port client_id).trace
      = ((multiPairs symbols timeframes).enum.map fun _ =>
          [ConnEvent.connect (orStr host (defaultHost env))
            (orNat port (defaultPort env))
            (orNat client_id (defaultClientId env)),
           ConnEvent.disconnect]).flatten := by
  have hmm : ((multiPairs symbols timeframes).enum.map fun p =>
        get_ib_ticks env (gwStream p.1) p.2.1 p.2.2.1 p.2.2.2 v sb
          (if host.isNone ∧ 1 ≤ v then some (defaultHost env) else host)
          (if port.isNone ∧ 1 ≤ v then some (defaultPort env) else port)
          (if client_id.isNone ∧ 1 ≤ v then some (defaultClientId env)
            else client_id)).map TicksRun.trace
      = (multiPairs symbols timeframes).enum.map fun _ =>
          [ConnEvent.connect (orStr host (defaultHost env))
            (orNat port (defaultPort env))
            (orNat client_id (defaultClientId env)),
           ConnEvent.disconnect] := by
    rw [List.map_map]
    exact List.map_congr_left fun p _ => by
      show (get_ib_ticks env (gwStream p.1) p.2.1 p.2.2.1 p.2.2.2 v sb
        _ _ _).trace = _
      rw [get_ib_ticks_trace_eq, orStr_resolve, orNat_resolve,
        orNat_resolve]
  simp only [get_ib_ticks_multiple]
  rw [hmm]
  by_cases hE : (((multiPairs symbols timeframes).enum.map fun p =>
      get_ib_ticks env (gwStream p.1) p.2.1 p.2.2.1 p.2.2.2 v sb
        (if host.isNone ∧ 1 ≤ v then some (defaultHost env) else host)
        (if port.isNone ∧ 1 ≤ v then some (defaultPort env) else port)
        (if client_id.isNone ∧ 1 ≤ v then some (defaultClientId env)
          else client_id)).filterMap TicksRun.table).isEmpty = true
  · rw [if_pos hE]
  · rw [if_neg hE]

/-- Claim C8: with the environment and the gateway event streams fixed, the
returned table, the connection parameters actually used (also when left
unspecified), and the outward connection actions of `get_ib_ticks` and
`get_ib_ticks_multiple` are identical at any two verbosity levels in
0..2; only console output may differ. -/
theorem c8_verbosity_noninterference (env : Env) (gw : Gateway)
    (gwStream : Nat → Gateway) (symbol duration barsize : String)
    (symbols : List String) (timeframes : List (String × String))
    (show_bars : Bool) (host : Option String)
    (port client_id : Option Nat) (v1 v2 : Nat)
    (hv1 : v1 ≤ 2) (hv2 : v2 ≤ 2) :
    (get_ib_ticks env gw symbol duration barsize v1 show_bars host port
        client_id).result
      = (get_ib_ticks env gw symbol duration barsize v2 show_bars host
          port client_id).result
    ∧ (get_ib_ticks_multiple env gwStream symbols timeframes v1
        show_bars host port client_id).table
      = (get_ib_ticks_multiple env gwStream symbols timeframes v2
          show_bars host port client_id).table
    ∧ (get_ib_ticks_multiple env gwStream symbols timeframes v1
        show_bars host port client_id).trace
      = (get_ib_ticks_multiple env gwStream symbols timeframes v2
          show_bars host port client_id).trace := by
  refine ⟨?_, ?_, ?_⟩
  · simp only [TicksRun.result, get_ib_ticks]
    rw [ticksBody_fst_verbose gw symbol duration barsize v1 v2 show_bars
      show_bars]
  · rw [get_ib_ticks_multiple_table_norm, get_ib_ticks_multiple_table_norm]
  · rw [get_ib_ticks_multiple_trace_norm, get_ib_ticks_multiple_trace_norm]

/-- Claim C8 witness: at verbosities 0 and 2, a run against a gateway that
delivers one bar per request returns the same table, parameters and
trace. -/
theorem c8_witness :
    (0 : Nat) ≤ 2
    ∧ (get_ib_ticks demoEnv demoGw "SPY" "1 M" "3 hours" 0 false none
        none none).result
      = (get_ib_ticks demoEnv demoGw "SPY" "1 M" "3 hours" 2 false none
          none none).result
    ∧ (get_ib_ticks_multiple demoEnv (fun _ => demoGw) ["SPY"]
        [("1 M", "3 hours")] 0 false none none none).table
      = (get_ib_ticks_multiple demoEnv (fun _ => demoGw) ["SPY"]
          [("1 M", "3 hours")] 2 false none none none).table :=
  have h := c8_verbosity_noninterference demoEnv demoGw (fun _ => demoGw)
    "SPY" "1 M" "3 hours" ["SPY"] [("1 M", "3 hours")] false none none
    none 0 2 (by decide) (by decide)
  ⟨by decide, h.1, h.2.1⟩

/-- `multiPairs` enumerates the full product of symbols and
timeframes. -/
theorem multiPairs_length (s : List String)
    (t : List (String × String)) :
    (multiPairs s t).length = s.length * t.length := by
  induction s with
  | nil => simp [multiPairs]
  | cons a s ih =>
    simp only [multiPairs, List.map_cons, List.flatten_cons,
      List.length_append, List.length_map, List.length_cons]
    simp only [multiPairs] at ih
    rw [ih]
    ring

/-- A flatten of connect/disconnect blocks opens one connection per
block and closes each before the next opens. -/
theorem connect_blocks {α : Type} (l : List α) (h : String)
    (p c : Nat) :
    connectCount ((l.map fun _ =>
        [ConnEvent.connect h p c, ConnEvent.disconnect]).flatten)
      = l.length
    ∧ alternatesCD ((l.map fun _ =>
        [ConnEvent.connect h p c, ConnEvent.disconnect]).flatten)
      = true := by
  induction l with
  | nil => exact ⟨rfl, rfl⟩
  | cons a t ih =>
    simp only [List.map_cons, List.flatten_cons, List.cons_append,
      List.nil_append]
    constructor
    · have hone := ih.1
      simp only [connectCount] at hone ⊢
      simp [isConnect, hone]
    · show alternatesCD (ConnEvent.connect h p c
        :: ConnEvent.disconnect :: _) = true
      rw [alternatesCD]
      exact ih.2

/-- Claim C9 counterexample: one symbol with two timeframe configurations
opens two connections, not the single per-symbol connection the claim
states. -/
theorem c9_counterexample :
    connectCount (get_ib_ticks_multiple demoEnv (fun _ => emptyGw)
        ["SPY"] [("1 M", "3 hours"), ("1 Y", "1 day")] 0 false none none
        none).trace = 2
    ∧ (2 : Nat) ≠ 1 := by
  constructor
  · rfl
  · decide

/-- Claim C9 amended: `get_ib_ticks_multiple` opens exactly one fresh
connection per (symbol, timeframe) pair — symbols × timeframes in total
— and every connection is disconnected before the next one is opened. -/
theorem c9_amended_connection_per_pair (env : Env)
    (gwStream : Nat → Gateway) (symbols : List String)
    (timeframes : List (String × String)) (verbose : Nat)
    (show_bars : Bool) (host : Option String)
    (port client_id : Option Nat) :
    connectCount (get_ib_ticks_multiple env gwStream symbols timeframes
        verbose show_bars host port client_id).trace
      = symbols.length * timeframes.length
    ∧ alternatesCD (get_ib_ticks_multiple env gwStream symbols
        timeframes verbose show_bars host port client_id).trace
      = true := by
  have hlen : (multiPairs symbols timeframes).enum.length
      = symbols.length * timeframes.length := by
    rw [List.enum_length]
    exact multiPairs_length symbols timeframes
  obtain ⟨h1, h2⟩ := connect_blocks (multiPairs symbols timeframes).enum
    (orStr host (defaultHost env)) (orNat port (defaultPort env))
    (orNat client_id (defaultClientId env))
  constructor
  · rw [get_ib_ticks_multiple_trace_norm, h1, hlen]
  · rw [get_ib_ticks_multiple_trace_norm]
    exact h2

end IBHist
